import Mathlib

/-!
Shallow embedding of the intent-orchestrator platform's core
(resource registry, capability matcher, workflow state machine,
orchestrator) translated from the Python sources under
`backend/mcp/registry/resource_registry.py`,
`backend/mcp/matchers/capability_matcher.py`,
`backend/workflow/engines/workflow_state.py`, and
`backend/workflow/engines/langgraph_orchestrator.py`.

Conventions of the embedding:
- Python floats are modelled as `ℚ` (all constants in the source are
  decimal literals, exactly representable).
- Python ints that participate in integer comparisons (retry counters,
  priorities) are modelled as `ℤ`.
- `datetime.utcnow()` is modelled by passing an explicit `now : ℚ`
  timestamp parameter to each state-mutating operation.
- Python dicts are modelled as association lists with in-place update
  semantics (`dinsert` replaces the value of an existing key keeping its
  position, and appends new keys at the end), matching the insertion-order
  behaviour of CPython dicts.
- Python `Optional` values and dict keys read via `.get` are modelled as
  `Option`; Python truthiness of a numeric value (`if x:`) is modelled as
  `isSome` plus a nonzero test, truthiness of a list as nonemptiness.
-/

/-- Dictionary lookup on an association list (first binding wins, as in a
Python dict, whose keys are unique). -/
def dlookup {κ α : Type} [DecidableEq κ] (k : κ) : List (κ × α) → Option α
  | [] => none
  | (k₁, v) :: rest => if k₁ = k then some v else dlookup k rest

/-- Dictionary assignment `d[k] = v`: replaces the value at an existing key
in place, otherwise appends the new binding at the end (CPython dict
insertion-order semantics). -/
def dinsert {κ α : Type} [DecidableEq κ] (k : κ) (v : α) : List (κ × α) → List (κ × α)
  | [] => [(k, v)]
  | (k₁, v₁) :: rest => if k₁ = k then (k, v) :: rest else (k₁, v₁) :: dinsert k v rest

/-- The keys of an association list are pairwise distinct (the invariant a
Python dict maintains automatically). -/
def keysNodup {κ α : Type} (d : List (κ × α)) : Prop :=
  (d.map Prod.fst).Nodup

/-- `dict.update(other)`: iterate over `other`, assigning each binding. -/
def dictUpdate {κ α : Type} [DecidableEq κ] (base other : List (κ × α)) : List (κ × α) :=
  other.foldl (fun acc kv => dinsert kv.1 kv.2 acc) base

/-! ## Resource registry data model (`resource_registry.py`) -/

inductive AgentStatus where
  | AVAILABLE
  | BUSY
  | OFFLINE
  | ERROR
  | MAINTENANCE
deriving DecidableEq, Repr

inductive CapabilityType where
  | FRAUD_DETECTION
  | TRANSACTION_ANALYSIS
  | DEVICE_VERIFICATION
  | LOCATION_TRACKING
  | KYC_VERIFICATION
  | SIM_SWAP_DETECTION
  | SCAM_DETECTION
  | NETWORK_ANALYSIS
  | DATA_ENRICHMENT
  | RISK_SCORING
deriving DecidableEq, Repr

/-- `AgentCapability` dataclass. -/
structure AgentCapability where
  capability_type : CapabilityType
  confidence_level : ℚ
  response_time_sla : ℚ
  data_requirements : List String
  output_format : String
  cost_per_request : ℚ := 0
  rate_limit : Option ℚ := none
deriving DecidableEq, Repr

/-- `AgentResource` dataclass (the `metadata : Dict[str, Any]` field is
modelled as an opaque list of string pairs; it is never inspected by the
modelled operations). -/
structure AgentResource where
  agent_id : String
  name : String
  description : String
  capabilities : List AgentCapability
  status : AgentStatus
  endpoint_url : String
  last_heartbeat : ℚ
  performance_metrics : List (String × ℚ)
  metadata : List (String × String)
  created_at : ℚ
  updated_at : ℚ
deriving DecidableEq, Repr

/-- One entry of `ResourceRegistry.performance_history` (the dict literal
built inside `heartbeat`). -/
structure HistoryEntry where
  timestamp : ℚ
  metrics : List (String × ℚ)
deriving DecidableEq, Repr

/-- `ResourceRegistry.__init__` state. The capability index maps each
capability type to the set of agent ids, modelled as a duplicate-free list
in insertion order. -/
structure ResourceRegistry where
  agents : List (String × AgentResource) := []
  capability_index : List (CapabilityType × List String) := []
  heartbeat_timeout : ℚ := 300
  performance_history : List (String × List HistoryEntry) := []
deriving DecidableEq, Repr

namespace ResourceRegistry

/-- `set.add`: append the id if it is not already present. -/
def indexAdd (idx : List (CapabilityType × List String)) (ct : CapabilityType)
    (aid : String) : List (CapabilityType × List String) :=
  let cur := (dlookup ct idx).getD []
  dinsert ct (if aid ∈ cur then cur else cur ++ [aid]) idx

/-- `register_agent`: refreshes the timestamps, stores the agent
(overwriting any previous registration under the same id), indexes it under
each of its capability types and resets its performance history. The Python
body sits in a `try` block whose operations are total, so the embedded
function always returns `True`; the `except` branch (log and return
`False`) is unreachable in the model. -/
def register_agent (reg : ResourceRegistry) (agent_resource : AgentResource)
    (now : ℚ) : Bool × ResourceRegistry :=
  let a := { agent_resource with created_at := now, updated_at := now, last_heartbeat := now }
  let agents₁ := dinsert a.agent_id a reg.agents
  let index₁ := a.capabilities.foldl (fun idx cap => indexAdd idx cap.capability_type a.agent_id)
    reg.capability_index
  let history₁ := dinsert a.agent_id [] reg.performance_history
  (true, { reg with
            agents := agents₁
            capability_index := index₁
            performance_history := history₁ })

/-- The history append of `heartbeat`: push the new entry, then keep only
the last 100 entries. -/
def appendCappedHistory (hist : List HistoryEntry) (entry : HistoryEntry) :
    List HistoryEntry :=
  let hist₁ := hist ++ [entry]
  if hist₁.length > 100 then hist₁.drop (hist₁.length - 100) else hist₁

/-- `heartbeat`: refresh `last_heartbeat`; when a truthy metrics dict is
given, merge it into `performance_metrics` and append a capped history
entry; auto-transition OFFLINE → AVAILABLE. The Python code reads
`self.performance_history[agent_id]`, which exists for every registered
agent (initialised by `register_agent`); the model reads it with a default
of `[]` for totality. -/
def heartbeat (reg : ResourceRegistry) (agent_id : String)
    (performance_metrics : Option (List (String × ℚ))) (now : ℚ) :
    Bool × ResourceRegistry :=
  match dlookup agent_id reg.agents with
  | none => (false, reg)
  | some agent =>
    let agent₁ := { agent with last_heartbeat := now }
    let (agent₂, reg₂) :=
      match performance_metrics with
      | some m =>
        if m.isEmpty then (agent₁, reg)
        else
          let agent₂ := { agent₁ with
            performance_metrics := dictUpdate agent₁.performance_metrics m }
          let entry : HistoryEntry := { timestamp := now, metrics := m }
          let hist := (dlookup agent_id reg.performance_history).getD []
          let hist₂ := appendCappedHistory hist entry
          (agent₂, { reg with performance_history := dinsert agent_id hist₂ reg.performance_history })
      | none => (agent₁, reg)
    let agent₃ :=
      if agent₂.status = AgentStatus.OFFLINE then
        { agent₂ with status := AgentStatus.AVAILABLE }
      else agent₂
    (true, { reg₂ with agents := dinsert agent_id agent₃ reg₂.agents })

/-- The requirements dict accepted by `find_agents_by_capability`. Each
field is `none` when the key is absent (or its value is `None`, which every
read via `.get` treats identically). -/
structure ReqDict where
  min_confidence : Option ℚ := none
  max_response_time : Option ℚ := none
  max_cost : Option ℚ := none
  required_data : Option (List String) := none
deriving DecidableEq, Repr

/-- Python truthiness of the requirements dict (`if not requirements`):
the dict is truthy when it has at least one key. -/
def ReqDict.truthy (r : ReqDict) : Bool :=
  r.min_confidence.isSome || r.max_response_time.isSome ||
    r.max_cost.isSome || r.required_data.isSome

/-- Python truthiness of an optional number (`if x:`). -/
def optTruthy (o : Option ℚ) : Bool :=
  match o with
  | some v => v ≠ 0
  | none => false

/-- `_matches_requirements`, translated clause by clause. -/
def matches_requirements (capability : AgentCapability)
    (requirements : Option ReqDict) : Bool :=
  match requirements with
  | none => true
  | some r =>
    if ¬ r.truthy then true
    else if capability.confidence_level < r.min_confidence.getD 0 then false
    else if optTruthy r.max_response_time ∧
        capability.response_time_sla > r.max_response_time.getD 0 then false
    else if optTruthy r.max_cost ∧
        capability.cost_per_request > r.max_cost.getD 0 then false
    else if (r.required_data.getD []) ≠ [] ∧
        ¬ (r.required_data.getD []).all (fun req => capability.data_requirements.contains req)
      then false
    else true

/-- `find_agents_by_capability`: iterate over the id set indexed under the
capability type; keep agents that exist, are AVAILABLE or BUSY, and whose
first capability of the requested type (the inner `for`/`break`) matches
the requirements. -/
def find_agents_by_capability (reg : ResourceRegistry)
    (capability_type : CapabilityType) (requirements : Option ReqDict) :
    List AgentResource :=
  let agent_ids := (dlookup capability_type reg.capability_index).getD []
  agent_ids.filterMap (fun agent_id =>
    match dlookup agent_id reg.agents with
    | none => none
    | some agent =>
      if ¬ (agent.status = AgentStatus.AVAILABLE ∨ agent.status = AgentStatus.BUSY) then none
      else
        match agent.capabilities.find? (fun c => c.capability_type == capability_type) with
        | none => none
        | some capability =>
          if matches_requirements capability requirements then some agent else none)

end ResourceRegistry

/-! ## Capability matcher (`capability_matcher.py`) -/

inductive MatchingStrategy where
  | BEST_PERFORMANCE
  | FASTEST_RESPONSE
  | LOWEST_COST
  | HIGHEST_CONFIDENCE
  | LOAD_BALANCED
deriving DecidableEq, Repr

/-- `CapabilityRequirement` dataclass. -/
structure CapabilityRequirement where
  capability_type : CapabilityType
  min_confidence : ℚ := 0
  max_response_time : Option ℚ := none
  max_cost : Option ℚ := none
  required_data : Option (List String) := none
  preferred_agents : Option (List String) := none
  excluded_agents : Option (List String) := none
  priority : ℤ := 1
deriving DecidableEq, Repr

/-- `AgentMatch` dataclass. -/
structure AgentMatch where
  agent : AgentResource
  capability_type : CapabilityType
  match_score : ℚ
  confidence_score : ℚ
  performance_score : ℚ
  cost_score : ℚ
  availability_score : ℚ
  reasons : List String
deriving DecidableEq, Repr

namespace CapabilityMatcher

/-- The fixed `scoring_weights` dict set in `__init__`. -/
def weight_confidence : ℚ := 0.3

def weight_performance : ℚ := 0.25

def weight_cost : ℚ := 0.2

def weight_availability : ℚ := 0.15

def weight_preference : ℚ := 0.1

/-- `_calculate_confidence_score`. -/
def calculate_confidence_score (agent_confidence min_required : ℚ) : ℚ :=
  if agent_confidence < min_required then 0
  else min (agent_confidence / max min_required 0.1) 1

/-- `_calculate_performance_score`. The `if requirement.max_response_time:`
and `if avg_response and requirement.max_response_time:` guards are Python
truthiness tests (non-`None` and nonzero). -/
def calculate_performance_score (agent : AgentResource) (capability : AgentCapability)
    (requirement : CapabilityRequirement) : ℚ :=
  let base₀ : ℚ := 0.5
  let base₁ :=
    if ResourceRegistry.optTruthy requirement.max_response_time then
      if capability.response_time_sla ≤ requirement.max_response_time.getD 0 then
        base₀ + (1 - capability.response_time_sla / requirement.max_response_time.getD 0) * 0.3
      else base₀ - 0.2
    else base₀
  let success_rate := (dlookup "success_rate" agent.performance_metrics).getD 0.5
  let base₂ := base₁ + (success_rate - 0.5) * 0.3
  let avg_response := dlookup "avg_response_time" agent.performance_metrics
  let base₃ :=
    if ResourceRegistry.optTruthy avg_response ∧
        ResourceRegistry.optTruthy requirement.max_response_time then
      if avg_response.getD 0 ≤ requirement.max_response_time.getD 0 then base₂ + 0.1
      else base₂
    else base₂
  max 0 (min 1 base₃)

/-- `_calculate_cost_score`. -/
def calculate_cost_score (agent_cost : ℚ) (max_cost : Option ℚ) : ℚ :=
  match max_cost with
  | none => 1
  | some mc =>
    if mc ≤ 0 then 1
    else if agent_cost > mc then 0
    else if agent_cost = 0 then 1
    else max 0 (1 - agent_cost / mc)

/-- The `status_scores` dict of `_calculate_availability_score` (total over
the enum, so the `.get(_, 0.0)` default is never used). -/
def statusScore : AgentStatus → ℚ
  | AgentStatus.AVAILABLE => 1
  | AgentStatus.BUSY => 0.6
  | AgentStatus.OFFLINE => 0
  | AgentStatus.ERROR => 0.1
  | AgentStatus.MAINTENANCE => 0

/-- `_calculate_availability_score`. -/
def calculate_availability_score (agent : AgentResource) : ℚ :=
  let base := statusScore agent.status
  let current_load := (dlookup "current_load" agent.performance_metrics).getD 0
  if current_load > 0.8 then base * 0.7
  else if current_load > 0.5 then base * 0.85
  else base

/-- `_calculate_preference_score`. `if not preferred_agents:` covers both a
missing and an empty preference list. -/
def calculate_preference_score (agent_id : String)
    (preferred_agents : Option (List String)) : ℚ :=
  match preferred_agents with
  | none => 0.5
  | some l =>
    if l.isEmpty then 0.5
    else if agent_id ∈ l then 1 - ((l.indexOf agent_id : ℚ) / (l.length : ℚ)) * 0.5
    else 0.3

/-- `_generate_match_reasons`. The Python code formats the confidence level
with two decimals; the model renders the rational with `toString`, which is
inert for every claim (the strings are only carried along). -/
def generate_match_reasons (agent : AgentResource) (capability : AgentCapability)
    (confidence_score performance_score cost_score availability_score : ℚ) :
    List String :=
  let r₀ : List String := []
  let r₁ :=
    if confidence_score > 0.8 then
      r₀ ++ ["High confidence level (" ++ toString capability.confidence_level ++ ")"]
    else if confidence_score < 0.5 then
      r₀ ++ ["Low confidence level (" ++ toString capability.confidence_level ++ ")"]
    else r₀
  let r₂ :=
    if performance_score > 0.8 then r₁ ++ ["Excellent performance metrics"]
    else if performance_score < 0.5 then r₁ ++ ["Below average performance"]
    else r₁
  let r₃ :=
    if cost_score > 0.8 then r₂ ++ ["Cost-effective option"]
    else if cost_score = 0 then r₂ ++ ["Exceeds cost budget"]
    else r₂
  let r₄ :=
    if availability_score = 1 then r₃ ++ ["Fully available"]
    else if availability_score < 0.5 then r₃ ++ ["Limited availability"]
    else r₃
  let r₅ :=
    if agent.status = AgentStatus.BUSY then
      r₄ ++ ["Currently busy but can handle request"]
    else r₄
  let success_rate := (dlookup "success_rate" agent.performance_metrics).getD 0
  if success_rate > 0.95 then r₅ ++ ["Very high success rate"] else r₅

/-- `_create_agent_match`: locate the first capability of the requested
type, compute the five component scores, combine them with the fixed
weights and apply the priority multiplier. The `strategy` parameter is
accepted but unused, as in the source. -/
def create_agent_match (agent : AgentResource) (requirement : CapabilityRequirement)
    (_strategy : MatchingStrategy) : Option AgentMatch :=
  match agent.capabilities.find? (fun c => c.capability_type == requirement.capability_type) with
  | none => none
  | some relevant_capability =>
    let confidence_score := calculate_confidence_score
      relevant_capability.confidence_level requirement.min_confidence
    let performance_score := calculate_performance_score agent relevant_capability requirement
    let cost_score := calculate_cost_score
      relevant_capability.cost_per_request requirement.max_cost
    let availability_score := calculate_availability_score agent
    let preference_score := calculate_preference_score agent.agent_id
      requirement.preferred_agents
    let match_score₀ :=
      confidence_score * weight_confidence +
      performance_score * weight_performance +
      cost_score * weight_cost +
      availability_score * weight_availability +
      preference_score * weight_preference
    let match_score := match_score₀ * (1 + ((requirement.priority : ℚ) - 1) * 0.1)
    some { agent := agent
           capability_type := requirement.capability_type
           match_score := match_score
           confidence_score := confidence_score
           performance_score := performance_score
           cost_score := cost_score
           availability_score := availability_score
           reasons := generate_match_reasons agent relevant_capability
             confidence_score performance_score cost_score availability_score }

/-- `_find_agents_for_requirement`: registry lookup with the requirement
translated into the registry's requirements dict, exclusion filtering, then
scoring. -/
def find_agents_for_requirement (reg : ResourceRegistry)
    (requirement : CapabilityRequirement) (strategy : MatchingStrategy) :
    List AgentMatch :=
  let candidates := ResourceRegistry.find_agents_by_capability reg
    requirement.capability_type
    (some { min_confidence := some requirement.min_confidence
            max_response_time := requirement.max_response_time
            max_cost := requirement.max_cost
            required_data := some (requirement.required_data.getD []) })
  let candidates₁ :=
    match requirement.excluded_agents with
    | some ex =>
      if ex.isEmpty then candidates
      else candidates.filter (fun agent => ¬ agent.agent_id ∈ ex)
    | none => candidates
  candidates₁.filterMap (fun agent => create_agent_match agent requirement strategy)

/-- One step of `_deduplicate_matches`: dict assignment keyed by
`agent.agent_id`, keeping the incumbent unless the new score is strictly
greater (value replaced in place, preserving first-seen position). -/
def dedupStep : List AgentMatch → AgentMatch → List AgentMatch
  | [], m => [m]
  | x :: xs, m =>
    if x.agent.agent_id = m.agent.agent_id then
      if m.match_score > x.match_score then m :: xs else x :: xs
    else x :: dedupStep xs m

/-- `_deduplicate_matches`. -/
def deduplicate_matches (ms : List AgentMatch) : List AgentMatch :=
  ms.foldl dedupStep []

/-- Stable descending insertion by a numeric key: the new element goes
after every element whose key is ≥ its own, reproducing the order produced
by Python's stable `sorted(..., reverse=True)` / `list.sort(reverse=True)`. -/
def insertDescBy (key : AgentMatch → ℚ) : List AgentMatch → AgentMatch → List AgentMatch
  | [], m => [m]
  | x :: xs, m =>
    if key x ≥ key m then x :: insertDescBy key xs m else m :: x :: xs

/-- Stable descending sort by a numeric key. -/
def sortDescBy (key : AgentMatch → ℚ) (l : List AgentMatch) : List AgentMatch :=
  l.foldl (insertDescBy key) []

/-- `_apply_strategy_filtering` (the `max_agents` parameter is accepted and
unused, as in the source; truncation happens in `find_best_agents`). -/
def apply_strategy_filtering (ms : List AgentMatch)
    (strategy : MatchingStrategy) (_max_agents : ℕ) : List AgentMatch :=
  match strategy with
  | MatchingStrategy.FASTEST_RESPONSE => sortDescBy (fun m => m.performance_score) ms
  | MatchingStrategy.LOWEST_COST => sortDescBy (fun m => m.cost_score) ms
  | MatchingStrategy.HIGHEST_CONFIDENCE => sortDescBy (fun m => m.confidence_score) ms
  | MatchingStrategy.LOAD_BALANCED =>
    (ms.filter (fun m => m.availability_score > 0.8)) ++
      (ms.filter (fun m => ¬ m.availability_score > 0.8))
  | MatchingStrategy.BEST_PERFORMANCE => ms

/-- `find_best_agents`: per-requirement matching, deduplication, descending
sort by `match_score`, strategy-specific reordering, truncation to
`max_agents`. -/
def find_best_agents (reg : ResourceRegistry)
    (requirements : List CapabilityRequirement)
    (strategy : MatchingStrategy) (max_agents : ℕ) : List AgentMatch :=
  let all_matches := requirements.foldl
    (fun acc requirement => acc ++ find_agents_for_requirement reg requirement strategy) []
  let unique_matches := deduplicate_matches all_matches
  let sorted_matches := sortDescBy (fun m => m.match_score) unique_matches
  let final_matches := apply_strategy_filtering sorted_matches strategy max_agents
  final_matches.take max_agents

end CapabilityMatcher

/-! ## Workflow state machine (`workflow_state.py`) -/

inductive WorkflowStatus where
  | PENDING
  | RUNNING
  | COMPLETED
  | FAILED
  | CANCELLED
  | PAUSED
deriving DecidableEq, Repr

/-- The `.value` string of a `WorkflowStatus`. -/
def WorkflowStatus.value : WorkflowStatus → String
  | WorkflowStatus.PENDING => "pending"
  | WorkflowStatus.RUNNING => "running"
  | WorkflowStatus.COMPLETED => "completed"
  | WorkflowStatus.FAILED => "failed"
  | WorkflowStatus.CANCELLED => "cancelled"
  | WorkflowStatus.PAUSED => "paused"

inductive StepStatus where
  | PENDING
  | RUNNING
  | COMPLETED
  | FAILED
  | SKIPPED
deriving DecidableEq, Repr

/-- `AgentResult` dataclass. The opaque result payload is modelled as a
numeric dict, which is all the orchestrator ever reads from it
(`risk_score`, `confidence`). -/
structure AgentResult where
  agent_id : String
  capability_type : String
  status : StepStatus
  result : Option (List (String × ℚ)) := none
  error : Option String := none
  execution_time_ms : ℚ := 0
  confidence : ℚ := 0
  timestamp : ℚ := 0
deriving DecidableEq, Repr

/-- `WorkflowStep` dataclass (the never-read `parameters : Dict[str, Any]`
field is omitted from the model). -/
structure WorkflowStep where
  step_id : String
  name : String
  description : String
  agent_id : Option String := none
  capability_type : Option String := none
  status : StepStatus := StepStatus.PENDING
  dependencies : List String := []
  result : Option AgentResult := none
  started_at : Option ℚ := none
  completed_at : Option ℚ := none
  retry_count : ℤ := 0
  max_retries : ℤ := 3
deriving DecidableEq, Repr

/-- The `execution_metrics` dict initialised in `WorkflowState.__init__`. -/
structure ExecutionMetrics where
  total_execution_time : ℚ := 0
  agent_call_count : ℤ := 0
  parallel_executions : ℤ := 0
  retry_count : ℤ := 0
deriving DecidableEq, Repr

/-- One record of `decisions_made` (built by `add_decision`). -/
structure DecisionRecord where
  timestamp : ℚ
  decision_point : String
  decision : String
  reasoning : String
  confidence : ℚ
deriving DecidableEq, Repr

/-- `WorkflowState.__init__`. The free-form `context` / `input_data` /
`output_data` dicts are modelled with string values (only ever written and
carried along by the modelled operations); `intermediate_results` stores
the agent result payloads keyed by step id. -/
structure WorkflowState where
  workflow_id : String
  intent_id : String
  intent_type : String
  status : WorkflowStatus := WorkflowStatus.PENDING
  created_at : ℚ := 0
  started_at : Option ℚ := none
  completed_at : Option ℚ := none
  updated_at : ℚ := 0
  steps : List (String × WorkflowStep) := []
  step_order : List String := []
  current_step : Option String := none
  context : List (String × String) := []
  input_data : List (String × String) := []
  output_data : List (String × String) := []
  intermediate_results : List (String × Option (List (String × ℚ))) := []
  selected_agents : List (String × String) := []
  agent_results : List (String × AgentResult) := []
  decisions_made : List DecisionRecord := []
  risk_score : ℚ := 0
  confidence_scores : List (String × ℚ) := []
  errors : List String := []
  warnings : List String := []
  execution_metrics : ExecutionMetrics := {}
deriving DecidableEq, Repr

namespace WorkflowState

/-- `_update_timestamp`. -/
def update_timestamp (ws : WorkflowState) (now : ℚ) : WorkflowState :=
  { ws with updated_at := now }

/-- `add_step`. -/
def add_step (ws : WorkflowState) (step : WorkflowStep) (now : ℚ) : WorkflowState :=
  let ws₁ := { ws with steps := dinsert step.step_id step ws.steps }
  let ws₂ :=
    if step.step_id ∈ ws₁.step_order then ws₁
    else { ws₁ with step_order := ws₁.step_order ++ [step.step_id] }
  update_timestamp ws₂ now

/-- `start_workflow`. -/
def start_workflow (ws : WorkflowState) (now : ℚ) : WorkflowState :=
  update_timestamp { ws with status := WorkflowStatus.RUNNING, started_at := some now } now

/-- `complete_workflow`. -/
def complete_workflow (ws : WorkflowState)
    (final_result : Option (List (String × String))) (now : ℚ) : WorkflowState :=
  let ws₁ := { ws with status := WorkflowStatus.COMPLETED, completed_at := some now }
  let ws₂ :=
    match final_result with
    | some r => if r.isEmpty then ws₁ else { ws₁ with output_data := dictUpdate ws₁.output_data r }
    | none => ws₁
  let ws₃ :=
    match ws₂.started_at with
    | some s =>
      { ws₂ with execution_metrics :=
          { ws₂.execution_metrics with total_execution_time := (now - s) * 1000 } }
    | none => ws₂
  update_timestamp ws₃ now

/-- `fail_workflow`. -/
def fail_workflow (ws : WorkflowState) (error : String) (now : ℚ) : WorkflowState :=
  update_timestamp
    { ws with status := WorkflowStatus.FAILED
              completed_at := some now
              errors := ws.errors ++ ["Workflow failed: " ++ error] } now

/-- `start_step`: sets the step RUNNING (no precondition beyond the step
existing), records `started_at` and `current_step`. -/
def start_step (ws : WorkflowState) (step_id : String) (now : ℚ) : Bool × WorkflowState :=
  match dlookup step_id ws.steps with
  | none => (false, ws)
  | some step =>
    let step₁ := { step with status := StepStatus.RUNNING, started_at := some now }
    (true, update_timestamp
      { ws with steps := dinsert step_id step₁ ws.steps, current_step := some step_id } now)

/-- `complete_step`: sets the step COMPLETED, stores the result on the step,
in `agent_results` keyed by the result's `agent_id`, and in
`intermediate_results` keyed by step id; bumps `agent_call_count`. -/
def complete_step (ws : WorkflowState) (step_id : String) (result : AgentResult)
    (now : ℚ) : Bool × WorkflowState :=
  match dlookup step_id ws.steps with
  | none => (false, ws)
  | some step =>
    let step₁ := { step with status := StepStatus.COMPLETED
                             completed_at := some now
                             result := some result }
    let ws₁ :=
      { ws with steps := dinsert step_id step₁ ws.steps
                agent_results := dinsert result.agent_id result ws.agent_results
                intermediate_results := dinsert step_id result.result ws.intermediate_results
                execution_metrics :=
                  { ws.execution_metrics with
                      agent_call_count := ws.execution_metrics.agent_call_count + 1 } }
    (true, update_timestamp ws₁ now)

/-- `fail_step`: increments `retry_count`; within the retry budget
(`retry_count ≤ max_retries` after the increment) and with `should_retry`,
resets the step to PENDING; otherwise marks it FAILED and records the
error. -/
def fail_step (ws : WorkflowState) (step_id error : String) (should_retry : Bool)
    (now : ℚ) : Bool × WorkflowState :=
  match dlookup step_id ws.steps with
  | none => (false, ws)
  | some step =>
    let step₁ := { step with retry_count := step.retry_count + 1 }
    if should_retry = true ∧ step₁.retry_count ≤ step₁.max_retries then
      let step₂ := { step₁ with status := StepStatus.PENDING, started_at := none }
      let ws₁ :=
        { ws with steps := dinsert step_id step₂ ws.steps
                  execution_metrics :=
                    { ws.execution_metrics with
                        retry_count := ws.execution_metrics.retry_count + 1 }
                  warnings := ws.warnings ++
                    ["Retrying step " ++ step_id ++ " (attempt " ++
                      toString step₁.retry_count ++ ")"] }
      (true, update_timestamp ws₁ now)
    else
      let step₂ := { step₁ with status := StepStatus.FAILED, completed_at := some now }
      let ws₁ :=
        { ws with steps := dinsert step_id step₂ ws.steps
                  errors := ws.errors ++ ["Step " ++ step_id ++ " failed: " ++ error] }
      (true, update_timestamp ws₁ now)

/-- `get_next_steps`: the PENDING steps, in `step_order`, all of whose
dependencies that exist in the workflow are COMPLETED. (Ids in `step_order`
always exist in `steps` — `add_step` maintains this — so the `none` branch
is unreachable.) -/
def get_next_steps (ws : WorkflowState) : List String :=
  ws.step_order.filter (fun step_id =>
    match dlookup step_id ws.steps with
    | none => false
    | some step =>
      step.status == StepStatus.PENDING &&
        step.dependencies.all (fun dep_id =>
          match dlookup dep_id ws.steps with
          | none => true
          | some dep => dep.status == StepStatus.COMPLETED))

/-- `calculate_overall_confidence`: mean of the stored agent results'
confidences (0 when there are none). -/
def calculate_overall_confidence (ws : WorkflowState) : ℚ :=
  if ws.agent_results.isEmpty then 0
  else (ws.agent_results.map (fun p => p.2.confidence)).sum / (ws.agent_results.length : ℚ)

/-- The final recommendation dict (`action`, `priority`, and for the
non-generic intent types `reasoning` and `confidence`). -/
structure Recommendation where
  action : String
  priority : String
  reasoning : Option String := none
  confidence : Option ℚ := none
deriving DecidableEq, Repr

/-- `_generate_fraud_recommendation`. -/
def generate_fraud_recommendation (ws : WorkflowState) : Recommendation :=
  if ws.risk_score > 0.8 then
    { action := "block_transaction", priority := "high"
      reasoning := some "High fraud risk detected"
      confidence := some (calculate_overall_confidence ws) }
  else if ws.risk_score > 0.6 then
    { action := "manual_review", priority := "medium"
      reasoning := some "Moderate fraud risk - requires review"
      confidence := some (calculate_overall_confidence ws) }
  else
    { action := "allow_transaction", priority := "low"
      reasoning := some "Low fraud risk"
      confidence := some (calculate_overall_confidence ws) }

/-- `_generate_verification_recommendation`. -/
def generate_verification_recommendation (ws : WorkflowState) : Recommendation :=
  let overall_confidence := calculate_overall_confidence ws
  if overall_confidence > 0.9 then
    { action := "approve_verification", priority := "low"
      reasoning := some "High confidence verification"
      confidence := some overall_confidence }
  else if overall_confidence > 0.7 then
    { action := "request_additional_documents", priority := "medium"
      reasoning := some "Moderate confidence - need more verification"
      confidence := some overall_confidence }
  else
    { action := "reject_verification", priority := "high"
      reasoning := some "Low confidence verification"
      confidence := some overall_confidence }

/-- `_generate_final_recommendation`. -/
def generate_final_recommendation (ws : WorkflowState) : Recommendation :=
  if ws.intent_type = "fraud_detection" then generate_fraud_recommendation ws
  else if ws.intent_type = "customer_verification" then
    generate_verification_recommendation ws
  else { action := "review_results", priority := "medium" }

/-- The per-agent summary entries of the aggregated result dict. -/
structure AgentResultSummary where
  capability : String
  confidence : ℚ
  result : Option (List (String × ℚ))
  execution_time : ℚ
deriving DecidableEq, Repr

/-- The dict returned by `get_aggregated_results`. -/
structure AggregatedResults where
  workflow_id : String
  intent_id : String
  status : String
  overall_confidence : ℚ
  risk_score : ℚ
  execution_time_ms : ℚ
  steps_completed : ℕ
  steps_failed : ℕ
  agent_results : List (String × AgentResultSummary)
  decisions : List DecisionRecord
  final_recommendation : Recommendation
deriving DecidableEq, Repr

/-- `get_aggregated_results`. -/
def get_aggregated_results (ws : WorkflowState) : AggregatedResults :=
  { workflow_id := ws.workflow_id
    intent_id := ws.intent_id
    status := ws.status.value
    overall_confidence := calculate_overall_confidence ws
    risk_score := ws.risk_score
    execution_time_ms := ws.execution_metrics.total_execution_time
    steps_completed := (ws.steps.filter (fun p => p.2.status == StepStatus.COMPLETED)).length
    steps_failed := (ws.steps.filter (fun p => p.2.status == StepStatus.FAILED)).length
    agent_results := ws.agent_results.map (fun p =>
      (p.1, { capability := p.2.capability_type
              confidence := p.2.confidence
              result := p.2.result
              execution_time := p.2.execution_time_ms }))
    decisions := ws.decisions_made
    final_recommendation := generate_final_recommendation ws }

/-- `is_complete`. -/
def is_complete (ws : WorkflowState) : Bool :=
  ws.status = WorkflowStatus.COMPLETED ∨ ws.status = WorkflowStatus.FAILED ∨
    ws.status = WorkflowStatus.CANCELLED

end WorkflowState

/-! ## Orchestrator (`langgraph_orchestrator.py`) -/

/-- The orchestrator's mutable state; the compiled LangGraph objects in
`workflow_graphs` carry no state of their own beyond the template shape and
are not modelled (graph execution is abstracted by the `run` argument of
`execute_workflow`). -/
structure Orchestrator where
  active_workflows : List (String × WorkflowState) := []
deriving Repr

/-- The outcome of driving the workflow graph (`astream` loop): either the
evolved workflow state, or an exception message together with the
(partially mutated, aliased) state at the moment the exception escaped. -/
abbrev ExecOutcome : Type := Except (String × WorkflowState) WorkflowState

namespace Orchestrator

/-- `execute_workflow`: an unknown workflow id raises
`ValueError("Workflow not found: ...")` before the `try` block (modelled as
`Except.error`); for a known workflow the body starts the workflow, drives
the graph, completes the workflow if it is still RUNNING, and returns the
aggregated results — any exception from graph execution is caught,
`fail_workflow` is applied, and the aggregated results of the failed state
are returned. -/
def execute_workflow (orch : Orchestrator) (workflow_id : String)
    (run : WorkflowState → ExecOutcome) (now : ℚ) :
    Except String (WorkflowState.AggregatedResults × Orchestrator) :=
  match dlookup workflow_id orch.active_workflows with
  | none => Except.error ("Workflow not found: " ++ workflow_id)
  | some workflow_state =>
    let ws₁ := workflow_state.start_workflow now
    match run ws₁ with
    | Except.ok ws₂ =>
      let final_state :=
        if ws₂.status = WorkflowStatus.RUNNING then ws₂.complete_workflow none now
        else ws₂
      Except.ok (final_state.get_aggregated_results,
        { orch with active_workflows := dinsert workflow_id final_state orch.active_workflows })
    | Except.error (e, wsErr) =>
      let final_state := wsErr.fail_workflow e now
      Except.ok (final_state.get_aggregated_results,
        { orch with active_workflows := dinsert workflow_id final_state orch.active_workflows })

/-- `cancel_workflow`: unknown id → `False`; otherwise the workflow's
status is set to CANCELLED and `completed_at` stamped, unconditionally. -/
def cancel_workflow (orch : Orchestrator) (workflow_id : String) (now : ℚ) :
    Bool × Orchestrator :=
  match dlookup workflow_id orch.active_workflows with
  | none => (false, orch)
  | some workflow_state =>
    let ws₁ := { workflow_state with status := WorkflowStatus.CANCELLED
                                     completed_at := some now }
    (true, { orch with active_workflows := dinsert workflow_id ws₁ orch.active_workflows })

end Orchestrator

/-! ## Helper definitions for the statements -/

/-- The match score of an optional match (0 when no match was produced, an
impossible case in the comparisons below since both sides are produced from
the same capability list). -/
def matchScoreOpt : Option AgentMatch → ℚ
  | none => 0
  | some m => m.match_score

/-- Iterate `fail_step` (with `should_retry = True`) `k` times on the same
step. -/
def failIterate (ws : WorkflowState) (step_id error : String) (now : ℚ) :
    ℕ → WorkflowState
  | 0 => ws
  | k + 1 => ((failIterate ws step_id error now k).fail_step step_id error true now).2

/-- The shape of a step that `fail_step` has just reset for a retry. -/
def retriedStep (st : WorkflowStep) (k : ℤ) : WorkflowStep :=
  { st with retry_count := k, status := StepStatus.PENDING, started_at := none }

/-! ## Concrete fixtures -/

/-- A workflow step with no dependencies (fixture for C2). -/
def c2Step1 : WorkflowStep :=
  { step_id := "s1", name := "Step 1", description := "first" }

/-- A workflow step depending on `s1` (fixture for C2). -/
def c2Step2 : WorkflowStep :=
  { step_id := "s2", name := "Step 2", description := "second", dependencies := ["s1"] }

/-- A two-step workflow where `s2` depends on the still-PENDING `s1`
(fixture for C2). -/
def c2Ws : WorkflowState :=
  (WorkflowState.add_step
    { workflow_id := "w", intent_id := "i", intent_type := "fraud_detection" } c2Step1 0
    ).add_step c2Step2 0

/-- A single step with the default `max_retries = 3` (fixture for C3). -/
def c3Step : WorkflowStep :=
  { step_id := "s", name := "Step", description := "only step" }

/-- A one-step workflow (fixture for C3). -/
def c3Ws : WorkflowState :=
  WorkflowState.add_step
    { workflow_id := "w", intent_id := "i", intent_type := "fraud_detection" } c3Step 0

/-- A workflow already in the terminal COMPLETED state (fixture for C4). -/
def c4Ws : WorkflowState :=
  { workflow_id := "w", intent_id := "i", intent_type := "fraud_detection"
    status := WorkflowStatus.COMPLETED }

/-- An orchestrator holding the completed workflow (fixture for C4). -/
def c4Orch : Orchestrator := { active_workflows := [("w", c4Ws)] }

/-- A pending workflow (fixture for C1). -/
def c1Ws : WorkflowState :=
  { workflow_id := "w1", intent_id := "i1", intent_type := "fraud_detection" }

/-- An orchestrator holding one known workflow (fixture for C1). -/
def c1Orch : Orchestrator := { active_workflows := [("w1", c1Ws)] }

/-- A fraud-detection capability with a positive per-request cost (fixture
for C5; all fixture rationals are integer-valued so that statements about
them are kernel-decidable). -/
def c5Cap : AgentCapability :=
  { capability_type := CapabilityType.FRAUD_DETECTION
    confidence_level := 1
    response_time_sla := 2000
    data_requirements := ["customer_id"]
    output_format := "json"
    cost_per_request := 5 }

/-- An available agent holding `c5Cap` (fixture for C5). -/
def c5Agent : AgentResource :=
  { agent_id := "a1", name := "Fraud agent", description := "fixture"
    capabilities := [c5Cap], status := AgentStatus.AVAILABLE
    endpoint_url := "http://localhost/a1", last_heartbeat := 0
    performance_metrics := [], metadata := [], created_at := 0, updated_at := 0 }

/-- A registry holding `c5Agent` (fixture for C5). -/
def c5Reg : ResourceRegistry := (ResourceRegistry.register_agent {} c5Agent 0).2

/-- A requirements dict whose `max_cost` key is present with value 0
(fixture for C5). -/
def c5Req : ResourceRegistry.ReqDict :=
  { min_confidence := some 0, max_cost := some 0 }

/-- An agent with an empty capabilities list (fixture for C6). -/
def c6Agent : AgentResource :=
  { agent_id := "empty-agent", name := "No capabilities", description := "fixture"
    capabilities := [], status := AgentStatus.AVAILABLE
    endpoint_url := "http://localhost/e", last_heartbeat := 0
    performance_metrics := [], metadata := [], created_at := 0, updated_at := 0 }

/-- A capability used by the C7, C8 and C9 fixture agents. -/
def c7Cap : AgentCapability :=
  { capability_type := CapabilityType.RISK_SCORING
    confidence_level := 1
    response_time_sla := 1500
    data_requirements := []
    output_format := "json"
    cost_per_request := 0 }

/-- An available agent holding `c7Cap` (fixture for C7). -/
def c7Agent : AgentResource :=
  { agent_id := "risk-1", name := "Risk agent", description := "fixture"
    capabilities := [c7Cap], status := AgentStatus.AVAILABLE
    endpoint_url := "http://localhost/r", last_heartbeat := 0
    performance_metrics := [("success_rate", 1)], metadata := []
    created_at := 0, updated_at := 0 }

/-- A requirement for the C7 fixture (its priority field is overridden in
the theorem). -/
def c7Req : CapabilityRequirement :=
  { capability_type := CapabilityType.RISK_SCORING
    min_confidence := 1
    max_response_time := some 3000
    priority := 1 }

/-- A registry with one agent (fixture for C8). -/
def c8Reg : ResourceRegistry := (ResourceRegistry.register_agent {} c7Agent 0).2

/-- A requirement list for the C8 fixture. -/
def c8Reqs : List CapabilityRequirement := [c7Req]

/-- A busy agent with one capability and some metrics (fixture for C9). -/
def c9Agent : AgentResource :=
  { agent_id := "hb-1", name := "Heartbeat agent", description := "fixture"
    capabilities := [c7Cap], status := AgentStatus.BUSY
    endpoint_url := "http://localhost/h", last_heartbeat := 0
    performance_metrics := [("success_rate", 1)], metadata := []
    created_at := 0, updated_at := 0 }

/-- A registry with two agents (fixture for C9). -/
def c9Reg : ResourceRegistry :=
  (ResourceRegistry.register_agent (ResourceRegistry.register_agent {} c9Agent 0).2
    c6Agent 0).2

/-- Two agent results submitted by the same agent for different steps
(fixtures for C10). -/
def c10Result1 : AgentResult :=
  { agent_id := "dup-agent", capability_type := "fraud_detection"
    status := StepStatus.COMPLETED, confidence := 1 }

/-- The second result from the same agent (fixture for C10). -/
def c10Result2 : AgentResult :=
  { agent_id := "dup-agent", capability_type := "risk_scoring"
    status := StepStatus.COMPLETED, confidence := 3 }

/-- The first step of the C10 fixture workflow. -/
def c10Step1 : WorkflowStep := { step_id := "t1", name := "T1", description := "first" }

/-- The second step of the C10 fixture workflow. -/
def c10Step2 : WorkflowStep := { step_id := "t2", name := "T2", description := "second" }

/-- A two-step workflow for C10 with independent steps. -/
def c10Ws : WorkflowState :=
  (WorkflowState.add_step
    (WorkflowState.add_step
      { workflow_id := "w", intent_id := "i", intent_type := "fraud_detection" }
      c10Step1 0)
    c10Step2 0)

/-! ## Dictionary lemmas -/

theorem dlookup_dinsert_self {κ α : Type} [DecidableEq κ] (k : κ) (v : α)
    (d : List (κ × α)) : dlookup k (dinsert k v d) = some v := by
  induction d with
  | nil => simp [dinsert, dlookup]
  | cons hd tl ih =>
    by_cases h : hd.1 = k
    · simp [dinsert, dlookup, h]
    · simp [dinsert, dlookup, h, ih]

theorem dlookup_dinsert_ne {κ α : Type} [DecidableEq κ] (k k₁ : κ) (v : α)
    (d : List (κ × α)) (h : k₁ ≠ k) : dlookup k₁ (dinsert k v d) = dlookup k₁ d := by
  induction d with
  | nil => simp [dinsert, dlookup, Ne.symm h]
  | cons hd tl ih =>
    by_cases h₂ : hd.1 = k
    · simp [dinsert, dlookup, h₂, Ne.symm h]
    · by_cases h₃ : hd.1 = k₁
      · simp [dinsert, dlookup, h₂, h₃, h]
      · simp [dinsert, dlookup, h₂, h₃, ih]

theorem keys_dinsert {κ α : Type} [DecidableEq κ] (k : κ) (v : α)
    (d : List (κ × α)) :
    (dinsert k v d).map Prod.fst =
      if k ∈ d.map Prod.fst then d.map Prod.fst else d.map Prod.fst ++ [k] := by
  induction d with
  | nil => simp [dinsert]
  | cons hd tl ih =>
    by_cases h : hd.1 = k
    · simp [dinsert, h]
    · have h₁ : ¬ k = hd.1 := fun h₂ => h h₂.symm
      simp only [dinsert, if_neg h, List.map_cons, List.mem_cons, h₁, false_or]
      rw [ih]
      by_cases h₂ : k ∈ tl.map Prod.fst <;> simp [h₂]

theorem keysNodup_dinsert {κ α : Type} [DecidableEq κ] (k : κ) (v : α)
    (d : List (κ × α)) (h : keysNodup d) : keysNodup (dinsert k v d) := by
  unfold keysNodup at h ⊢
  rw [keys_dinsert]
  by_cases h₂ : k ∈ d.map Prod.fst
  · simpa [h₂]
  · rw [if_neg h₂, List.nodup_append]
    refine ⟨h, List.nodup_singleton k, ?_⟩
    intro a ha h₃
    rw [List.mem_singleton] at h₃
    exact h₂ (h₃ ▸ ha)

/-! ## C2 — step start vs. dependency completion -/

/-- C2 counterexample: in `c2Ws` only `s1` is eligible per
`get_next_steps`, yet `start_step "s2"` succeeds and leaves `s2` RUNNING
while its declared dependency `s1` is still PENDING (not COMPLETED). This
refutes the claim that a step is never RUNNING while a dependency is
incomplete and that `start_step` moves a step to RUNNING only when
`get_next_steps` lists it. -/
theorem start_step_runs_step_with_incomplete_dependencies :
    WorkflowState.get_next_steps c2Ws = ["s1"] ∧
    (c2Ws.start_step "s2" 1).1 = true ∧
    (dlookup "s2" (c2Ws.start_step "s2" 1).2.steps).map WorkflowStep.status =
      some StepStatus.RUNNING ∧
    (dlookup "s1" (c2Ws.start_step "s2" 1).2.steps).map WorkflowStep.status =
      some StepStatus.PENDING := by
  decide

/-- C2 (amended): `start_step` transitions any existing step to RUNNING
unconditionally — it checks neither that the step is PENDING nor that its
dependencies are COMPLETED (it returns `False` only for an unknown step
id); the no-RUNNING-before-dependencies invariant is not enforced by
`WorkflowState`. -/
theorem start_step_sets_running_unconditionally (ws : WorkflowState) (sid : String)
    (now : ℚ) (st : WorkflowStep) (h : dlookup sid ws.steps = some st) :
    (ws.start_step sid now).1 = true ∧
    dlookup sid (ws.start_step sid now).2.steps =
      some { st with status := StepStatus.RUNNING, started_at := some now } := by
  simp only [WorkflowState.start_step, h]
  exact ⟨by trivial, by simp [WorkflowState.update_timestamp, dlookup_dinsert_self]⟩

/-- C2 witness: the amended theorem applied to `c2Ws` and the non-eligible,
dependency-blocked step `s2`. -/
theorem start_step_sets_running_unconditionally_witness :
    dlookup "s2" c2Ws.steps = some c2Step2 ∧
    ((c2Ws.start_step "s2" 1).1 = true ∧
      dlookup "s2" (c2Ws.start_step "s2" 1).2.steps =
        some { c2Step2 with status := StepStatus.RUNNING, started_at := some 1 }) :=
  ⟨by decide, start_step_sets_running_unconditionally c2Ws "s2" 1 c2Step2 (by decide)⟩

/-! ## C3 — retry budget of fail_step -/

theorem fail_step_within_budget (ws : WorkflowState) (sid err : String) (now : ℚ)
    (st : WorkflowStep) (h : dlookup sid ws.steps = some st)
    (hc : st.retry_count + 1 ≤ st.max_retries) :
    dlookup sid (ws.fail_step sid err true now).2.steps =
      some (retriedStep st (st.retry_count + 1)) := by
  simp only [WorkflowState.fail_step, h]
  rw [if_pos ⟨by trivial, hc⟩]
  simp [WorkflowState.update_timestamp, dlookup_dinsert_self, retriedStep]

theorem fail_step_exhausted (ws : WorkflowState) (sid err : String) (now : ℚ)
    (st : WorkflowStep) (h : dlookup sid ws.steps = some st)
    (hc : ¬ st.retry_count + 1 ≤ st.max_retries) :
    dlookup sid (ws.fail_step sid err true now).2.steps =
      some { st with retry_count := st.retry_count + 1
                     status := StepStatus.FAILED
                     completed_at := some now } := by
  simp only [WorkflowState.fail_step, h]
  rw [if_neg (fun h₁ => hc h₁.2)]
  simp [WorkflowState.update_timestamp, dlookup_dinsert_self]

theorem failIterate_pending (ws : WorkflowState) (sid err : String) (now : ℚ)
    (st : WorkflowStep) (h : dlookup sid ws.steps = some st)
    (h0 : st.retry_count = 0) :
    ∀ k : ℕ, 1 ≤ k → (k : ℤ) ≤ st.max_retries →
      dlookup sid (failIterate ws sid err now k).steps =
        some (retriedStep st (k : ℤ)) := by
  intro k
  induction k with
  | zero => omega
  | succ k ih =>
    intro _ hk
    by_cases hk0 : k = 0
    · subst hk0
      simp only [failIterate]
      have hb : st.retry_count + 1 ≤ st.max_retries := by
        rw [h0]
        exact_mod_cast hk
      have := fail_step_within_budget ws sid err now st h hb
      rw [this, h0]
      norm_num
    · have hk1 : 1 ≤ k := Nat.one_le_iff_ne_zero.mpr hk0
      have hkle : (k : ℤ) ≤ st.max_retries := by
        have : ((k : ℤ)) + 1 ≤ st.max_retries := by exact_mod_cast hk
        omega
      have prev := ih hk1 hkle
      simp only [failIterate]
      have hb : (retriedStep st (k : ℤ)).retry_count + 1 ≤ (retriedStep st (k : ℤ)).max_retries := by
        simp only [retriedStep]
        exact_mod_cast hk
      have := fail_step_within_budget (failIterate ws sid err now k) sid err now
        (retriedStep st (k : ℤ)) prev hb
      rw [this]
      simp only [retriedStep]
      norm_num

/-- C3 counterexample: with the default `max_retries = 3`, three
consecutive `fail_step` calls leave the step PENDING (still being retried),
not in terminal FAILED status — refuting "calling fail_step exactly
max_retries times leaves the step in terminal FAILED status". -/
theorem fail_step_max_retries_failures_leave_step_pending :
    c3Step.max_retries = 3 ∧
    (dlookup "s" (failIterate c3Ws "s" "boom" 1 3).steps).map WorkflowStep.status =
      some StepStatus.PENDING ∧
    ¬ (dlookup "s" (failIterate c3Ws "s" "boom" 1 3).steps).map WorkflowStep.status =
      some StepStatus.FAILED := by
  decide

/-- C3 (amended): for a step with `retry_count = 0` and `should_retry`
true, each of the first `max_retries` calls to `fail_step` resets the step
to PENDING (a retry), and it is the `(max_retries+1)`-th failure that
leaves the step in terminal FAILED status — after which it is not reset to
PENDING. -/
theorem fail_step_terminal_after_max_retries_plus_one (ws : WorkflowState)
    (sid err : String) (now : ℚ) (st : WorkflowStep)
    (h : dlookup sid ws.steps = some st) (h0 : st.retry_count = 0)
    (hm : 1 ≤ st.max_retries) :
    (∀ k : ℕ, 1 ≤ k → (k : ℤ) ≤ st.max_retries →
      (dlookup sid (failIterate ws sid err now k).steps).map WorkflowStep.status =
        some StepStatus.PENDING) ∧
    (dlookup sid (failIterate ws sid err now (st.max_retries.toNat + 1)).steps).map
        WorkflowStep.status = some StepStatus.FAILED := by
  constructor
  · intro k hk1 hkle
    rw [failIterate_pending ws sid err now st h h0 k hk1 hkle]
    rfl
  · have hmn : (st.max_retries.toNat : ℤ) = st.max_retries :=
      Int.toNat_of_nonneg (by omega)
    have hk1 : 1 ≤ st.max_retries.toNat := by omega
    have prev := failIterate_pending ws sid err now st h h0 st.max_retries.toNat hk1
      (by rw [hmn])
    simp only [failIterate]
    have hc : ¬ (retriedStep st (st.max_retries.toNat : ℤ)).retry_count + 1 ≤
        (retriedStep st (st.max_retries.toNat : ℤ)).max_retries := by
      simp only [retriedStep]
      omega
    rw [fail_step_exhausted (failIterate ws sid err now st.max_retries.toNat) sid err now
      (retriedStep st (st.max_retries.toNat : ℤ)) prev hc]
    rfl

/-- C3 witness: the amended theorem applied to the one-step fixture with
the default retry budget of 3. -/
theorem fail_step_terminal_after_max_retries_plus_one_witness :
    dlookup "s" c3Ws.steps = some c3Step ∧ c3Step.retry_count = 0 ∧
    1 ≤ c3Step.max_retries ∧
    ((∀ k : ℕ, 1 ≤ k → (k : ℤ) ≤ c3Step.max_retries →
      (dlookup "s" (failIterate c3Ws "s" "boom" 1 k).steps).map WorkflowStep.status =
        some StepStatus.PENDING) ∧
    (dlookup "s" (failIterate c3Ws "s" "boom" 1 (c3Step.max_retries.toNat + 1)).steps).map
        WorkflowStep.status = some StepStatus.FAILED) :=
  ⟨by decide, by decide, by decide,
    fail_step_terminal_after_max_retries_plus_one c3Ws "s" "boom" 1 c3Step
      (by decide) (by decide) (by decide)⟩

/-! ## C4 — terminal states and cancel_workflow -/

/-- C4 counterexample: `c4Ws` is already in the terminal COMPLETED state,
yet `cancel_workflow` changes its status to CANCELLED — refuting the claim
that a terminal status never changes again and the state is no longer
mutated. -/
theorem cancel_workflow_overwrites_completed_status :
    c4Ws.status = WorkflowStatus.COMPLETED ∧
    (c4Orch.cancel_workflow "w" 5).1 = true ∧
    (dlookup "w" (c4Orch.cancel_workflow "w" 5).2.active_workflows).map
      WorkflowState.status = some WorkflowStatus.CANCELLED := by
  decide

/-- C4 (amended): terminal statuses are not enforced as immutable —
`cancel_workflow` on any known workflow unconditionally sets status
CANCELLED and stamps `completed_at`, regardless of the current (possibly
already terminal) status; the state-machine mutators never check for a
terminal workflow status. -/
theorem cancel_workflow_unconditional_cancelled_transition (orch : Orchestrator)
    (wid : String) (now : ℚ) (ws : WorkflowState)
    (h : dlookup wid orch.active_workflows = some ws) :
    (orch.cancel_workflow wid now).1 = true ∧
    dlookup wid (orch.cancel_workflow wid now).2.active_workflows =
      some { ws with status := WorkflowStatus.CANCELLED, completed_at := some now } := by
  simp only [Orchestrator.cancel_workflow, h]
  exact ⟨by trivial, by simp [dlookup_dinsert_self]⟩

/-- C4 witness: the amended theorem applied to the orchestrator holding the
already-COMPLETED workflow. -/
theorem cancel_workflow_unconditional_cancelled_transition_witness :
    dlookup "w" c4Orch.active_workflows = some c4Ws ∧
    ((c4Orch.cancel_workflow "w" 5).1 = true ∧
      dlookup "w" (c4Orch.cancel_workflow "w" 5).2.active_workflows =
        some { c4Ws with status := WorkflowStatus.CANCELLED, completed_at := some 5 }) :=
  ⟨by decide, cancel_workflow_unconditional_cancelled_transition c4Orch "w" 5 c4Ws (by decide)⟩

/-! ## C6 — register_agent validation -/

/-- C6 counterexample: registering an agent whose capabilities list is
empty succeeds — `register_agent` returns `True` and the agent is stored in
the registry — refuting the claim that such an agent is rejected with
`False` and the registry left unchanged. -/
theorem register_agent_accepts_empty_capabilities :
    c6Agent.capabilities = [] ∧
    (ResourceRegistry.register_agent {} c6Agent 0).1 = true ∧
    dlookup "empty-agent" (ResourceRegistry.register_agent {} c6Agent 0).2.agents =
      some c6Agent := by
  decide

/-- C6 (amended): `register_agent` performs no validation of the
capabilities list: an agent with an empty capabilities list is accepted —
the method returns `True`, stores the agent (with refreshed timestamps)
under its id, initialises an empty performance history, and leaves the
capability index unchanged; registration never raises to the caller. -/
theorem register_agent_no_capability_validation (reg : ResourceRegistry)
    (a : AgentResource) (now : ℚ) (h : a.capabilities = []) :
    (reg.register_agent a now).1 = true ∧
    dlookup a.agent_id (reg.register_agent a now).2.agents =
      some { a with created_at := now, updated_at := now, last_heartbeat := now } ∧
    (reg.register_agent a now).2.capability_index = reg.capability_index ∧
    dlookup a.agent_id (reg.register_agent a now).2.performance_history = some [] := by
  simp only [ResourceRegistry.register_agent, h]
  refine ⟨by trivial, ?_, by simp, ?_⟩
  · simp [dlookup_dinsert_self]
  · simp [dlookup_dinsert_self]

/-- C6 witness: the amended theorem applied to the empty-capabilities
fixture agent and the empty registry. -/
theorem register_agent_no_capability_validation_witness :
    c6Agent.capabilities = [] ∧
    (((ResourceRegistry.register_agent {} c6Agent 7).1 = true ∧
      dlookup c6Agent.agent_id (ResourceRegistry.register_agent {} c6Agent 7).2.agents =
        some { c6Agent with created_at := 7, updated_at := 7, last_heartbeat := 7 } ∧
      (ResourceRegistry.register_agent {} c6Agent 7).2.capability_index =
        ResourceRegistry.capability_index {} ∧
      dlookup c6Agent.agent_id
        (ResourceRegistry.register_agent {} c6Agent 7).2.performance_history = some [])) :=
  ⟨by decide, register_agent_no_capability_validation {} c6Agent 7 (by decide)⟩

/-! ## C10 — agent_results keyed by agent id -/

/-- C10: `complete_step` stores each result in `agent_results` keyed by the
result's `agent_id`, so completing two different steps with results from
the same agent leaves a single entry holding the later result
(overwriting the earlier one), key-uniqueness of the map is preserved, and
`calculate_overall_confidence` consequently averages over the distinct
agents' latest results (for an initially empty result map: exactly the
later result's confidence, although two steps completed). -/
theorem complete_step_keys_results_by_agent_id (ws : WorkflowState)
    (sid1 sid2 : String) (st1 st2 : WorkflowStep) (r1 r2 : AgentResult) (t1 t2 : ℚ)
    (h1 : dlookup sid1 ws.steps = some st1)
    (h2 : dlookup sid2 ws.steps = some st2)
    (hne : sid2 ≠ sid1)
    (hA : r2.agent_id = r1.agent_id) :
    (ws.complete_step sid1 r1 t1).2.agent_results =
      dinsert r1.agent_id r1 ws.agent_results ∧
    ((ws.complete_step sid1 r1 t1).2.complete_step sid2 r2 t2).2.agent_results =
      dinsert r2.agent_id r2 (dinsert r1.agent_id r1 ws.agent_results) ∧
    dlookup r1.agent_id
      ((ws.complete_step sid1 r1 t1).2.complete_step sid2 r2 t2).2.agent_results =
      some r2 ∧
    (keysNodup ws.agent_results →
      keysNodup ((ws.complete_step sid1 r1 t1).2.complete_step sid2 r2 t2).2.agent_results) ∧
    (ws.agent_results = [] →
      ((ws.complete_step sid1 r1 t1).2.complete_step sid2 r2 t2).2.agent_results =
        [(r1.agent_id, r2)] ∧
      ((ws.complete_step sid1 r1 t1).2.complete_step sid2 r2 t2).2.calculate_overall_confidence =
        r2.confidence) := by
  have h2x : dlookup sid2 (ws.complete_step sid1 r1 t1).2.steps = some st2 := by
    simp only [WorkflowState.complete_step, h1, WorkflowState.update_timestamp]
    rw [dlookup_dinsert_ne sid1 sid2 _ ws.steps hne]
    exact h2
  have e1 : (ws.complete_step sid1 r1 t1).2.agent_results =
      dinsert r1.agent_id r1 ws.agent_results := by
    simp only [WorkflowState.complete_step, h1, WorkflowState.update_timestamp]
  obtain ⟨ws₁, hws₁⟩ : ∃ x, x = (ws.complete_step sid1 r1 t1).2 := ⟨_, rfl⟩
  rw [← hws₁] at e1 h2x ⊢
  have e2 : (ws₁.complete_step sid2 r2 t2).2.agent_results =
      dinsert r2.agent_id r2 (dinsert r1.agent_id r1 ws.agent_results) := by
    simp only [WorkflowState.complete_step, h2x, WorkflowState.update_timestamp]
    rw [e1]
  refine ⟨e1, e2, ?_, ?_, ?_⟩
  · rw [e2, ← hA]
    exact dlookup_dinsert_self r2.agent_id r2 _
  · intro hnd
    rw [e2]
    exact keysNodup_dinsert _ _ _ (keysNodup_dinsert _ _ _ hnd)
  · intro hempty
    have e3 : (ws₁.complete_step sid2 r2 t2).2.agent_results =
        [(r1.agent_id, r2)] := by
      rw [e2, hempty, hA]
      simp [dinsert]
    refine ⟨e3, ?_⟩
    rw [WorkflowState.calculate_overall_confidence, e3]
    simp

/-- C10 witness: two completions of different steps by the same agent on
the two-step fixture workflow. -/
theorem complete_step_keys_results_by_agent_id_witness :
    dlookup "t1" c10Ws.steps = some c10Step1 ∧
    dlookup "t2" c10Ws.steps = some c10Step2 ∧
    ("t2" : String) ≠ "t1" ∧ c10Result2.agent_id = c10Result1.agent_id ∧
    ((c10Ws.complete_step "t1" c10Result1 1).2.agent_results =
      dinsert c10Result1.agent_id c10Result1 c10Ws.agent_results ∧
    ((c10Ws.complete_step "t1" c10Result1 1).2.complete_step "t2" c10Result2 2).2.agent_results =
      dinsert c10Result2.agent_id c10Result2
        (dinsert c10Result1.agent_id c10Result1 c10Ws.agent_results) ∧
    dlookup c10Result1.agent_id
      ((c10Ws.complete_step "t1" c10Result1 1).2.complete_step "t2" c10Result2 2).2.agent_results =
      some c10Result2 ∧
    (keysNodup c10Ws.agent_results →
      keysNodup ((c10Ws.complete_step "t1" c10Result1 1).2.complete_step
        "t2" c10Result2 2).2.agent_results) ∧
    (c10Ws.agent_results = [] →
      ((c10Ws.complete_step "t1" c10Result1 1).2.complete_step
        "t2" c10Result2 2).2.agent_results = [(c10Result1.agent_id, c10Result2)] ∧
      ((c10Ws.complete_step "t1" c10Result1 1).2.complete_step
        "t2" c10Result2 2).2.calculate_overall_confidence = c10Result2.confidence)) :=
  ⟨by decide, by decide, by decide, by decide,
    complete_step_keys_results_by_agent_id c10Ws "t1" "t2" c10Step1 c10Step2
      c10Result1 c10Result2 1 2 (by decide) (by decide) (by decide) (by decide)⟩

/-! ## C1 — execute_workflow result map vs. exceptions -/

/-- C1 counterexample: calling `execute_workflow` with an unknown workflow
id raises `ValueError("Workflow not found: ...")` (the check sits before
the `try` block) instead of returning a result map — refuting the claim
that an unknown workflow id is signalled without raising an exception. -/
theorem execute_workflow_unknown_id_raises_exception :
    Orchestrator.execute_workflow { active_workflows := [] } "wf-404"
      (fun s => Except.ok s) 0 = Except.error "Workflow not found: wf-404" := by
  rfl

/-- C1 (amended): for a workflow id present in `active_workflows`,
`execute_workflow` always returns a result map — exceptions escaping graph
execution are caught, the workflow is marked FAILED and the aggregated
results of the failed state are returned, with success vs. failure
communicated through the returned map's status field ("completed" when the
run left the workflow RUNNING, "failed" when an exception escaped).
An unknown workflow id, however, raises ValueError instead of returning a
map. -/
theorem execute_workflow_known_id_returns_result_map (orch : Orchestrator)
    (wid : String) (run : WorkflowState → ExecOutcome) (now : ℚ)
    (ws : WorkflowState) (h : dlookup wid orch.active_workflows = some ws) :
    ∃ res orch₁, orch.execute_workflow wid run now = Except.ok (res, orch₁) ∧
      (∀ e wsE, run (ws.start_workflow now) = Except.error (e, wsE) →
        res.status = "failed") ∧
      (∀ ws₂, run (ws.start_workflow now) = Except.ok ws₂ →
        (ws₂.status = WorkflowStatus.RUNNING → res.status = "completed") ∧
        (ws₂.status ≠ WorkflowStatus.RUNNING → res.status = ws₂.status.value)) := by
  simp only [Orchestrator.execute_workflow, h]
  cases hrun : run (ws.start_workflow now) with
  | ok ws₂ =>
    by_cases hst : ws₂.status = WorkflowStatus.RUNNING
    · refine ⟨_, _, rfl, ?_, ?_⟩
      · intro e wsE he
        exact Except.noConfusion he
      · intro ws₃ hok
        simp only [Except.ok.injEq] at hok
        subst hok
        refine ⟨fun _ => ?_, fun hne => absurd hst hne⟩
        rw [if_pos hst]
        simp only [WorkflowState.get_aggregated_results, WorkflowState.complete_workflow,
          WorkflowState.update_timestamp]
        split <;> rfl
    · refine ⟨_, _, rfl, ?_, ?_⟩
      · intro e wsE he
        exact Except.noConfusion he
      · intro ws₃ hok
        simp only [Except.ok.injEq] at hok
        subst hok
        exact ⟨fun hr => absurd hr hst, fun _ => by rw [if_neg hst]; rfl⟩
  | error p =>
    refine ⟨_, _, rfl, ?_, ?_⟩
    · intro e wsE he
      simp only [Except.error.injEq] at he
      subst he
      rfl
    · intro ws₃ hok
      exact Except.noConfusion hok

/-- C1 witness: the amended theorem applied to the one-workflow fixture
orchestrator with a graph run that raises. -/
theorem execute_workflow_known_id_returns_result_map_witness :
    dlookup "w1" c1Orch.active_workflows = some c1Ws ∧
    (∃ res orch₁,
      c1Orch.execute_workflow "w1" (fun s => Except.error ("boom", s)) 0 =
        Except.ok (res, orch₁) ∧
      (∀ e wsE, (fun (s : WorkflowState) => (Except.error ("boom", s) : ExecOutcome))
          (c1Ws.start_workflow 0) = Except.error (e, wsE) → res.status = "failed") ∧
      (∀ ws₂, (fun (s : WorkflowState) => (Except.error ("boom", s) : ExecOutcome))
          (c1Ws.start_workflow 0) = Except.ok ws₂ →
        (ws₂.status = WorkflowStatus.RUNNING → res.status = "completed") ∧
        (ws₂.status ≠ WorkflowStatus.RUNNING → res.status = ws₂.status.value))) :=
  ⟨by decide, execute_workflow_known_id_returns_result_map c1Orch "w1"
    (fun s => Except.error ("boom", s)) 0 c1Ws (by decide)⟩

/-! ## C9 — heartbeat frame property -/

/-- C9: for a registered agent, `heartbeat` returns `True` and modifies
only that agent's `last_heartbeat` (set to now), its
`performance_metrics` (merged with the provided metrics when a non-empty
metrics dict is given), its performance history entry (appended and capped
at 100, only when a non-empty metrics dict is given), and its status only
in the single case OFFLINE → AVAILABLE (BUSY, ERROR, MAINTENANCE and
AVAILABLE keep their status); every other agent's record and history, the
capability index and the timeout are unchanged. -/
theorem heartbeat_frame_property (reg : ResourceRegistry) (aid : String)
    (a : AgentResource) (metrics : Option (List (String × ℚ))) (now : ℚ)
    (h : dlookup aid reg.agents = some a) :
    (reg.heartbeat aid metrics now).1 = true ∧
    dlookup aid (reg.heartbeat aid metrics now).2.agents =
      some { a with
              last_heartbeat := now
              performance_metrics :=
                match metrics with
                | some m =>
                  if m.isEmpty then a.performance_metrics
                  else dictUpdate a.performance_metrics m
                | none => a.performance_metrics
              status :=
                if a.status = AgentStatus.OFFLINE then AgentStatus.AVAILABLE
                else a.status } ∧
    (∀ k, k ≠ aid →
      dlookup k (reg.heartbeat aid metrics now).2.agents = dlookup k reg.agents) ∧
    (∀ k, k ≠ aid →
      dlookup k (reg.heartbeat aid metrics now).2.performance_history =
        dlookup k reg.performance_history) ∧
    (reg.heartbeat aid metrics now).2.capability_index = reg.capability_index ∧
    (reg.heartbeat aid metrics now).2.heartbeat_timeout = reg.heartbeat_timeout ∧
    (∀ m, metrics = some m → m.isEmpty = false →
      dlookup aid (reg.heartbeat aid metrics now).2.performance_history =
        some (ResourceRegistry.appendCappedHistory
          ((dlookup aid reg.performance_history).getD [])
          { timestamp := now, metrics := m })) ∧
    (metrics = none →
      (reg.heartbeat aid metrics now).2.performance_history = reg.performance_history) ∧
    (∀ m, metrics = some m → m.isEmpty = true →
      (reg.heartbeat aid metrics now).2.performance_history = reg.performance_history) := by
  cases metrics with
  | none =>
    simp only [ResourceRegistry.heartbeat, h]
    refine ⟨by trivial, ?_, ?_, ?_, by trivial, by trivial, ?_, ?_, ?_⟩
    · rw [dlookup_dinsert_self]
      by_cases hoff : a.status = AgentStatus.OFFLINE <;> simp [hoff]
    · intro k hk
      exact dlookup_dinsert_ne aid k _ reg.agents hk
    · intro k _
      trivial
    · intro m hm
      exact Option.noConfusion hm
    · intro _
      trivial
    · intro m hm
      exact Option.noConfusion hm
  | some m =>
    by_cases hemp : m.isEmpty
    · simp only [ResourceRegistry.heartbeat, h, hemp, if_pos, if_true]
      refine ⟨by trivial, ?_, ?_, ?_, by trivial, by trivial, ?_, ?_, ?_⟩
      · rw [dlookup_dinsert_self]
        by_cases hoff : a.status = AgentStatus.OFFLINE <;> simp [hoff, hemp]
      · intro k hk
        exact dlookup_dinsert_ne aid k _ reg.agents hk
      · intro k _
        trivial
      · intro m₁ hm₁ hne
        rw [Option.some.injEq] at hm₁
        subst hm₁
        rw [hemp] at hne
        exact Bool.noConfusion hne
      · intro hm₁
        exact Option.noConfusion hm₁
      · intro m₁ _ _
        trivial
    · rw [Bool.not_eq_true] at hemp
      simp only [ResourceRegistry.heartbeat, h, hemp, Bool.false_eq_true, if_false]
      refine ⟨by trivial, ?_, ?_, ?_, by trivial, by trivial, ?_, ?_, ?_⟩
      · rw [dlookup_dinsert_self]
        by_cases hoff : a.status = AgentStatus.OFFLINE <;> simp [hoff, hemp]
      · intro k hk
        exact dlookup_dinsert_ne aid k _ reg.agents hk
      · intro k hk
        exact dlookup_dinsert_ne aid k _ reg.performance_history hk
      · intro m₁ hm₁ _
        rw [Option.some.injEq] at hm₁
        subst hm₁
        exact dlookup_dinsert_self aid _ reg.performance_history
      · intro hm₁
        exact Option.noConfusion hm₁
      · intro m₁ hm₁ hemp₁
        rw [Option.some.injEq] at hm₁
        subst hm₁
        rw [hemp] at hemp₁
        exact Bool.noConfusion hemp₁

/-- C9 witness: a heartbeat with a fresh metrics dict for the BUSY fixture
agent in the two-agent registry. -/
theorem heartbeat_frame_property_witness :
    dlookup "hb-1" c9Reg.agents = some c9Agent ∧
    ((c9Reg.heartbeat "hb-1" (some [("current_load", 1)]) 50).1 = true ∧
    dlookup "hb-1" (c9Reg.heartbeat "hb-1" (some [("current_load", 1)]) 50).2.agents =
      some { c9Agent with
              last_heartbeat := 50
              performance_metrics :=
                match some [(("current_load" : String), (1 : ℚ))] with
                | some m =>
                  if m.isEmpty then c9Agent.performance_metrics
                  else dictUpdate c9Agent.performance_metrics m
                | none => c9Agent.performance_metrics
              status :=
                if c9Agent.status = AgentStatus.OFFLINE then AgentStatus.AVAILABLE
                else c9Agent.status } ∧
    (∀ k, k ≠ "hb-1" →
      dlookup k (c9Reg.heartbeat "hb-1" (some [("current_load", 1)]) 50).2.agents =
        dlookup k c9Reg.agents) ∧
    (∀ k, k ≠ "hb-1" →
      dlookup k (c9Reg.heartbeat "hb-1" (some [("current_load", 1)]) 50).2.performance_history =
        dlookup k c9Reg.performance_history) ∧
    (c9Reg.heartbeat "hb-1" (some [("current_load", 1)]) 50).2.capability_index =
      c9Reg.capability_index ∧
    (c9Reg.heartbeat "hb-1" (some [("current_load", 1)]) 50).2.heartbeat_timeout =
      c9Reg.heartbeat_timeout ∧
    (∀ m, some [(("current_load" : String), (1 : ℚ))] = some m → m.isEmpty = false →
      dlookup "hb-1"
        (c9Reg.heartbeat "hb-1" (some [("current_load", 1)]) 50).2.performance_history =
        some (ResourceRegistry.appendCappedHistory
          ((dlookup "hb-1" c9Reg.performance_history).getD [])
          { timestamp := 50, metrics := m })) ∧
    (some [(("current_load" : String), (1 : ℚ))] = none →
      (c9Reg.heartbeat "hb-1" (some [("current_load", 1)]) 50).2.performance_history =
        c9Reg.performance_history) ∧
    (∀ m, some [(("current_load" : String), (1 : ℚ))] = some m → m.isEmpty = true →
      (c9Reg.heartbeat "hb-1" (some [("current_load", 1)]) 50).2.performance_history =
        c9Reg.performance_history)) :=
  ⟨by decide, heartbeat_frame_property c9Reg "hb-1" c9Agent
    (some [("current_load", 1)]) 50 (by decide)⟩

/-! ## C5 — registry requirement filtering -/

theorem ite_false_chain {c₁ c₂ c₃ c₄ : Prop} [Decidable c₁] [Decidable c₂]
    [Decidable c₃] [Decidable c₄] :
    (if c₁ then false
     else if c₂ then false
     else if c₃ then false
     else if c₄ then false
     else true) = true ↔ (¬ c₁ ∧ ¬ c₂ ∧ ¬ c₃ ∧ ¬ c₄) := by
  split_ifs <;> simp_all

theorem optBoundClause (o : Option ℚ) (x : ℚ) :
    ¬(ResourceRegistry.optTruthy o = true ∧ x > o.getD 0) ↔
      (∀ v, o = some v → v ≠ 0 → x ≤ v) := by
  cases o with
  | none => simp [ResourceRegistry.optTruthy]
  | some v =>
    by_cases hv : v = 0 <;> simp [ResourceRegistry.optTruthy, hv, not_lt]

theorem dataClause (cap : AgentCapability) (ds : List String) :
    (¬(ds ≠ [] ∧ ¬ (ds.all fun req => cap.data_requirements.contains req) = true)) ↔
      ∀ d ∈ ds, d ∈ cap.data_requirements := by
  by_cases hnil : ds = []
  · subst hnil; simp
  · simp [hnil, List.all_eq_true]

theorem dataClauseOpt (cap : AgentCapability) (o : Option (List String)) :
    (¬((o.getD []) ≠ [] ∧
        ¬ ((o.getD []).all fun req => cap.data_requirements.contains req) = true)) ↔
      (∀ ds, o = some ds → ∀ d ∈ ds, d ∈ cap.data_requirements) := by
  cases o with
  | none => simp
  | some ds =>
    simp only [Option.getD_some]
    rw [dataClause]
    simp

theorem matches_requirements_iff (cap : AgentCapability)
    (r : ResourceRegistry.ReqDict) (M : ℚ) (hM : r.min_confidence = some M) :
    ResourceRegistry.matches_requirements cap (some r) = true ↔
      (M ≤ cap.confidence_level ∧
       (∀ t, r.max_response_time = some t → t ≠ 0 → cap.response_time_sla ≤ t) ∧
       (∀ c, r.max_cost = some c → c ≠ 0 → cap.cost_per_request ≤ c) ∧
       (∀ ds, r.required_data = some ds → ∀ d ∈ ds, d ∈ cap.data_requirements)) := by
  obtain ⟨mc, mrt, mco, mrd⟩ := r
  simp only at hM
  subst hM
  simp only [ResourceRegistry.matches_requirements, ResourceRegistry.ReqDict.truthy,
    Option.isSome_some, Bool.true_or, Option.getD_some]
  rw [if_neg (by simp)]
  rw [ite_false_chain, not_lt, optBoundClause, optBoundClause, dataClauseOpt]

/-- C5 counterexample: the fixture requirements dict has `max_cost` present
with value 0 and the registered agent's capability costs 5 per request —
the cost requirement does not hold — yet the agent still appears in
`find_agents_by_capability` (the Python truthiness guard `if max_cost:`
skips a zero bound), refuting the claimed "iff every present requirement
holds". -/
theorem find_agents_ignores_zero_max_cost :
    c5Req.max_cost = some 0 ∧
    c5Cap.cost_per_request > 0 ∧
    c5Agent ∈ ResourceRegistry.find_agents_by_capability c5Reg
      CapabilityType.FRAUD_DETECTION (some c5Req) := by
  decide

/-- C5 (amended): a registered and capability-indexed agent whose first
capability of the requested type is `cap` appears in
`find_agents_by_capability` under a requirements dict with
`min_confidence = M` iff its status is AVAILABLE or BUSY, `M ≤` the
capability's confidence, and every present requirement with a nonzero
value holds (`max_response_time` and `max_cost` bounds equal to 0 are
skipped by the Python truthiness guards and not enforced; an empty
`required_data` list is trivially satisfied either way). -/
theorem find_agents_by_capability_membership_iff (reg : ResourceRegistry)
    (ct : CapabilityType) (a : AgentResource) (cap : AgentCapability)
    (r : ResourceRegistry.ReqDict) (M : ℚ)
    (hreg : dlookup a.agent_id reg.agents = some a)
    (hidx : a.agent_id ∈ (dlookup ct reg.capability_index).getD [])
    (hcap : a.capabilities.find? (fun c => c.capability_type == ct) = some cap)
    (hM : r.min_confidence = some M) :
    a ∈ ResourceRegistry.find_agents_by_capability reg ct (some r) ↔
      ((a.status = AgentStatus.AVAILABLE ∨ a.status = AgentStatus.BUSY) ∧
       M ≤ cap.confidence_level ∧
       (∀ t, r.max_response_time = some t → t ≠ 0 → cap.response_time_sla ≤ t) ∧
       (∀ c, r.max_cost = some c → c ≠ 0 → cap.cost_per_request ≤ c) ∧
       (∀ ds, r.required_data = some ds → ∀ d ∈ ds, d ∈ cap.data_requirements)) := by
  unfold ResourceRegistry.find_agents_by_capability
  rw [List.mem_filterMap]
  constructor
  · rintro ⟨id, hid, hf⟩
    rcases hlook : dlookup id reg.agents with _ | ag
    · rw [hlook] at hf
      cases hf
    · rw [hlook] at hf
      dsimp only at hf
      by_cases hstat : ag.status = AgentStatus.AVAILABLE ∨ ag.status = AgentStatus.BUSY
      · rw [if_neg (not_not_intro hstat)] at hf
        rcases hfind : ag.capabilities.find? (fun c => c.capability_type == ct) with _ | cap₀
        · rw [hfind] at hf
          cases hf
        · rw [hfind] at hf
          dsimp only at hf
          by_cases hm : ResourceRegistry.matches_requirements cap₀ (some r) = true
          · rw [if_pos hm] at hf
            rw [Option.some.injEq] at hf
            subst hf
            rw [hcap] at hfind
            rw [Option.some.injEq] at hfind
            subst hfind
            exact ⟨hstat, (matches_requirements_iff cap r M hM).mp hm⟩
          · rw [if_neg hm] at hf
            cases hf
      · rw [if_pos hstat] at hf
        cases hf
  · rintro ⟨hstat, hrest⟩
    refine ⟨a.agent_id, hidx, ?_⟩
    rw [hreg]
    dsimp only
    rw [if_neg (not_not_intro hstat)]
    rw [hcap]
    dsimp only
    rw [if_pos ((matches_requirements_iff cap r M hM).mpr hrest)]

/-- C5 witness: the amended iff applied to the fixture registry and a
requirements dict with nonzero bounds, all satisfied. -/
theorem find_agents_by_capability_membership_iff_witness :
    dlookup c5Agent.agent_id c5Reg.agents = some c5Agent ∧
    c5Agent.agent_id ∈
      (dlookup CapabilityType.FRAUD_DETECTION c5Reg.capability_index).getD [] ∧
    c5Agent.capabilities.find?
      (fun c => c.capability_type == CapabilityType.FRAUD_DETECTION) = some c5Cap ∧
    (c5Agent ∈ ResourceRegistry.find_agents_by_capability c5Reg
        CapabilityType.FRAUD_DETECTION
        (some { min_confidence := some 1, max_response_time := some 3000
                max_cost := some 10, required_data := some ["customer_id"] }) ↔
      ((c5Agent.status = AgentStatus.AVAILABLE ∨ c5Agent.status = AgentStatus.BUSY) ∧
       (1 : ℚ) ≤ c5Cap.confidence_level ∧
       (∀ t, (some (3000 : ℚ)) = some t → t ≠ 0 → c5Cap.response_time_sla ≤ t) ∧
       (∀ c, (some (10 : ℚ)) = some c → c ≠ 0 → c5Cap.cost_per_request ≤ c) ∧
       (∀ ds, (some ["customer_id"]) = some ds → ∀ d ∈ ds,
          d ∈ c5Cap.data_requirements))) :=
  ⟨by decide, by decide, by decide,
    find_agents_by_capability_membership_iff c5Reg CapabilityType.FRAUD_DETECTION
      c5Agent c5Cap
      { min_confidence := some 1, max_response_time := some 3000
        max_cost := some 10, required_data := some ["customer_id"] } 1
      (by decide) (by decide) (by decide) (by decide)⟩

/-! ## C7 — match score monotone in priority -/

theorem calculate_confidence_score_nonneg (c m : ℚ) (h : 0 ≤ c) :
    0 ≤ CapabilityMatcher.calculate_confidence_score c m := by
  unfold CapabilityMatcher.calculate_confidence_score
  split
  · exact le_refl 0
  · refine le_min ?_ zero_le_one
    refine div_nonneg h ?_
    exact le_trans (by norm_num) (le_max_right m 0.1)

theorem calculate_performance_score_nonneg (a : AgentResource)
    (cap : AgentCapability) (r : CapabilityRequirement) :
    0 ≤ CapabilityMatcher.calculate_performance_score a cap r := by
  unfold CapabilityMatcher.calculate_performance_score
  exact le_max_left 0 _

theorem calculate_cost_score_nonneg (c : ℚ) (mc : Option ℚ) :
    0 ≤ CapabilityMatcher.calculate_cost_score c mc := by
  unfold CapabilityMatcher.calculate_cost_score
  cases mc with
  | none => norm_num
  | some v =>
    dsimp only
    split
    · norm_num
    · split
      · norm_num
      · split
        · norm_num
        · exact le_max_left 0 _

theorem statusScore_nonneg (s : AgentStatus) : 0 ≤ CapabilityMatcher.statusScore s := by
  cases s <;> norm_num [CapabilityMatcher.statusScore]

theorem calculate_availability_score_nonneg (a : AgentResource) :
    0 ≤ CapabilityMatcher.calculate_availability_score a := by
  unfold CapabilityMatcher.calculate_availability_score
  have hs := statusScore_nonneg a.status
  dsimp only
  split
  · exact mul_nonneg hs (by norm_num)
  · split
    · exact mul_nonneg hs (by norm_num)
    · exact hs

theorem calculate_preference_score_nonneg (aid : String)
    (pref : Option (List String)) :
    0 ≤ CapabilityMatcher.calculate_preference_score aid pref := by
  unfold CapabilityMatcher.calculate_preference_score
  cases pref with
  | none => norm_num
  | some l =>
    dsimp only
    split
    · norm_num
    · split
      · rename_i hne hmem
        have hlen : 0 < l.length := List.length_pos.mpr (by
          intro hcon
          subst hcon
          simp at hne)
        have hidx : (l.indexOf aid : ℚ) ≤ (l.length : ℚ) := by
          exact_mod_cast List.indexOf_le_length
        have hq : (l.indexOf aid : ℚ) / (l.length : ℚ) ≤ 1 :=
          div_le_one_of_le₀ hidx (by positivity)
        have hq0 : 0 ≤ (l.indexOf aid : ℚ) / (l.length : ℚ) :=
          div_nonneg (by positivity) (by positivity)
        nlinarith
      · norm_num

/-- C7: `_create_agent_match` is monotonically non-decreasing in the
requirement's priority: for the same agent and the same requirement fields
other than priority (and agents whose confidence levels are within the
declared [0,1] range, hence nonnegative), a higher priority yields a match
score greater than or equal to that of a lower priority — the five
component scores do not depend on the priority, the weighted base score is
nonnegative, and the priority multiplier 1 + (priority−1)·0.1 is monotone. -/
theorem match_score_monotone_in_priority (agent : AgentResource)
    (req : CapabilityRequirement) (strategy : MatchingStrategy) (p₁ p₂ : ℤ)
    (hp : p₁ ≤ p₂)
    (hc : ∀ cap ∈ agent.capabilities, 0 ≤ cap.confidence_level) :
    matchScoreOpt (CapabilityMatcher.create_agent_match agent
        { req with priority := p₁ } strategy) ≤
    matchScoreOpt (CapabilityMatcher.create_agent_match agent
        { req with priority := p₂ } strategy) := by
  obtain ⟨ct, mc, mrt, mco, rd, pa, ea, pr⟩ := req
  unfold CapabilityMatcher.create_agent_match
  dsimp only
  cases hfind : agent.capabilities.find? (fun c => c.capability_type == ct) with
  | none => simp [matchScoreOpt]
  | some cap =>
    dsimp only [matchScoreOpt]
    have hcap0 : 0 ≤ cap.confidence_level := hc cap (List.mem_of_find?_eq_some hfind)
    have h₁ := calculate_confidence_score_nonneg cap.confidence_level mc hcap0
    have h₂ := calculate_performance_score_nonneg agent cap ⟨ct, mc, mrt, mco, rd, pa, ea, p₁⟩
    have h₃ := calculate_cost_score_nonneg cap.cost_per_request mco
    have h₄ := calculate_availability_score_nonneg agent
    have h₅ := calculate_preference_score_nonneg agent.agent_id pa
    have hbase : 0 ≤
        CapabilityMatcher.calculate_confidence_score cap.confidence_level mc *
            CapabilityMatcher.weight_confidence +
          CapabilityMatcher.calculate_performance_score agent cap
              ⟨ct, mc, mrt, mco, rd, pa, ea, p₁⟩ *
            CapabilityMatcher.weight_performance +
          CapabilityMatcher.calculate_cost_score cap.cost_per_request mco *
            CapabilityMatcher.weight_cost +
          CapabilityMatcher.calculate_availability_score agent *
            CapabilityMatcher.weight_availability +
          CapabilityMatcher.calculate_preference_score agent.agent_id pa *
            CapabilityMatcher.weight_preference := by
      have w₁ : (0:ℚ) ≤ CapabilityMatcher.weight_confidence := by
        norm_num [CapabilityMatcher.weight_confidence]
      have w₂ : (0:ℚ) ≤ CapabilityMatcher.weight_performance := by
        norm_num [CapabilityMatcher.weight_performance]
      have w₃ : (0:ℚ) ≤ CapabilityMatcher.weight_cost := by
        norm_num [CapabilityMatcher.weight_cost]
      have w₄ : (0:ℚ) ≤ CapabilityMatcher.weight_availability := by
        norm_num [CapabilityMatcher.weight_availability]
      have w₅ : (0:ℚ) ≤ CapabilityMatcher.weight_preference := by
        norm_num [CapabilityMatcher.weight_preference]
      exact add_nonneg (add_nonneg (add_nonneg (add_nonneg
        (mul_nonneg h₁ w₁) (mul_nonneg h₂ w₂)) (mul_nonneg h₃ w₃))
        (mul_nonneg h₄ w₄)) (mul_nonneg h₅ w₅)
    have hmono : (1 + ((p₁ : ℚ) - 1) * 0.1) ≤ (1 + ((p₂ : ℚ) - 1) * 0.1) := by
      have hcast : (p₁ : ℚ) ≤ (p₂ : ℚ) := Int.cast_le.mpr hp
      nlinarith
    have hperf : CapabilityMatcher.calculate_performance_score agent cap
        ⟨ct, mc, mrt, mco, rd, pa, ea, p₂⟩ =
        CapabilityMatcher.calculate_performance_score agent cap
        ⟨ct, mc, mrt, mco, rd, pa, ea, p₁⟩ := rfl
    rw [hperf]
    exact mul_le_mul_of_nonneg_left hmono hbase

/-- C7 witness: the monotonicity theorem applied to the fixture agent with
priorities 1 and 3. -/
theorem match_score_monotone_in_priority_witness :
    ((1 : ℤ) ≤ 3) ∧ (∀ cap ∈ c7Agent.capabilities, 0 ≤ cap.confidence_level) ∧
    matchScoreOpt (CapabilityMatcher.create_agent_match c7Agent
        { c7Req with priority := 1 } MatchingStrategy.BEST_PERFORMANCE) ≤
    matchScoreOpt (CapabilityMatcher.create_agent_match c7Agent
        { c7Req with priority := 3 } MatchingStrategy.BEST_PERFORMANCE) :=
  ⟨by decide, by decide,
    match_score_monotone_in_priority c7Agent c7Req
      MatchingStrategy.BEST_PERFORMANCE 1 3 (by decide) (by decide)⟩

/-! ## C8 — deterministic matching -/

/-- C8: `find_best_agents` is deterministic — the embedded matcher is a
pure function of the registry state and the call arguments (candidate
iteration follows the stored index order, deduplication keeps first-seen
positions, sorting is a fixed stable descending sort), so two calls on
equal registry states with the same requirements, strategy and `max_agents`
return identical match lists: the same ordering, and every `match_score`
and component score equal. -/
theorem find_best_agents_deterministic (reg₁ reg₂ : ResourceRegistry)
    (reqs : List CapabilityRequirement) (strategy : MatchingStrategy)
    (max_agents : ℕ) (h : reg₁ = reg₂) :
    CapabilityMatcher.find_best_agents reg₁ reqs strategy max_agents =
      CapabilityMatcher.find_best_agents reg₂ reqs strategy max_agents ∧
    (CapabilityMatcher.find_best_agents reg₁ reqs strategy max_agents).map
        (fun m => (m.match_score, m.confidence_score, m.performance_score,
          m.cost_score, m.availability_score)) =
      (CapabilityMatcher.find_best_agents reg₂ reqs strategy max_agents).map
        (fun m => (m.match_score, m.confidence_score, m.performance_score,
          m.cost_score, m.availability_score)) := by
  subst h
  exact ⟨rfl, rfl⟩

/-- C8 witness: two calls on the same fixture registry. -/
theorem find_best_agents_deterministic_witness :
    c8Reg = c8Reg ∧
    (CapabilityMatcher.find_best_agents c8Reg c8Reqs
        MatchingStrategy.BEST_PERFORMANCE 5 =
      CapabilityMatcher.find_best_agents c8Reg c8Reqs
        MatchingStrategy.BEST_PERFORMANCE 5 ∧
    (CapabilityMatcher.find_best_agents c8Reg c8Reqs
        MatchingStrategy.BEST_PERFORMANCE 5).map
        (fun m => (m.match_score, m.confidence_score, m.performance_score,
          m.cost_score, m.availability_score)) =
      (CapabilityMatcher.find_best_agents c8Reg c8Reqs
        MatchingStrategy.BEST_PERFORMANCE 5).map
        (fun m => (m.match_score, m.confidence_score, m.performance_score,
          m.cost_score, m.availability_score))) :=
  ⟨rfl, find_best_agents_deterministic c8Reg c8Reg c8Reqs
    MatchingStrategy.BEST_PERFORMANCE 5 rfl⟩
